import Mathlib

/-!
Verification of the Noteful backend (Express + Mongoose note/folder CRUD API).

The embedding models the two route modules `routes/notes.js` and
`routes/folders.js`. Each HTTP handler becomes a pure function from a
database state and the request's data to a result record holding the new
database state, the response sent, and the trace of storage calls made.
The external document database (MongoDB via Mongoose) and the schema
module `models/note.js` are not part of the source tree; where their
behavior decides a property, the corresponding definition carries a
doc comment starting `Modelled from the spec:`.
-/

namespace Noteful

/-- Hexadecimal digit test for identifier characters. -/
def isHexChar (c : Char) : Bool :=
  c.isDigit || ('a' ≤ c && c ≤ 'f') || ('A' ≤ c && c ≤ 'F')

/-- Modelled from the spec: `mongoose.Types.ObjectId.isValid` as the routes use
it — "identifiers are opaque strings in a fixed-length hexadecimal format"
(24 hex characters, as in the tests' `AAAAAAAAAAAAAAAAAAAAAAAA`). -/
def isValidObjectId (s : String) : Bool :=
  s.length == 24 && s.data.all isHexChar

/-- Truthiness of an optional string field of a JSON body, as JavaScript's
`if (!x)` sees it: an absent field (undefined) and the empty string are falsy. -/
def jsTruthy : Option String → Bool
  | none => false
  | some s => !(s == "")

/-- Modelled from the spec: a Note document per the data model — title
(required), content, optional folder reference, tag references, creation
timestamp, system-generated identifier. -/
structure Note where
  id : String
  title : String
  content : Option String
  folderId : Option String
  tags : List String
  created : Nat
deriving Repr, DecidableEq

/-- Modelled from the spec: a Folder document — unique name plus identifier. -/
structure Folder where
  id : String
  name : String
deriving Repr, DecidableEq

/-- Request body for POST/PUT on notes, `{title, content, folderId?, tags?}`;
every field may be absent. -/
structure NoteBody where
  title : Option String
  content : Option String
  folderId : Option String
  tags : Option (List String)
deriving Repr, DecidableEq

/-- Request body for POST/PUT on folders, `{name}`. -/
structure FolderBody where
  name : Option String
deriving Repr, DecidableEq

/-- The persisted document collections. -/
structure DB where
  notes : List Note
  folders : List Folder
deriving Repr, DecidableEq

/-- Sort order of the notes list query: `sort = 'created'` by default, or the
text-score meta sort when a search term is present. -/
inductive SortSpec where
  | byCreated
  | byScoreDesc
deriving Repr, DecidableEq

/-- The query built by the notes list handler: the `filter`, `projection` and
`sort` variables of `router.get('/notes')`. -/
structure ListQuery where
  textSearch : Option String
  scoreProjection : Bool
  sort : SortSpec
deriving Repr, DecidableEq

/-- Query construction in `router.get('/notes')`: start from empty filter,
empty projection and `sort = 'created'`; when `searchTerm` is truthy set
`filter.$text.$search`, project the text score and sort by it. -/
def buildNotesQuery (searchTerm : Option String) : ListQuery :=
  if jsTruthy searchTerm then
    { textSearch := searchTerm, scoreProjection := true, sort := .byScoreDesc }
  else
    { textSearch := none, scoreProjection := false, sort := .byCreated }

/-- A storage-layer error as the route handlers see it: Mongo duplicate-key
errors carry `code` 11000; cast failures carry no numeric code. -/
structure StorageErr where
  code : Option Nat
  msg : String
deriving Repr, DecidableEq

/-- Mongo duplicate-key violation of the folder-name uniqueness index. -/
def dupKeyErr : StorageErr := { code := some 11000, msg := "E11000 duplicate key error" }

/-- Driver failure to cast a malformed identifier string to an ObjectId. -/
def castErr : StorageErr := { code := none, msg := "CastError" }

/-- One call into the storage layer, recorded so that "no storage access"
properties can be stated. -/
inductive StorageCall where
  | findNotes (q : ListQuery)
  | findNoteById (id : String)
  | createNote (title : String) (content : Option String)
  | updateNote (id : String) (title : String) (content : Option String)
  | removeNote (id : String)
  | findFolderById (id : String)
  | createFolder (name : String)
  | updateFolder (id : String) (name : String)
  | removeFolder (id : String)
deriving Repr, DecidableEq

/-- Projection of a note in the list response: `select('title content created')`
plus the optional text-score field when the search projection is active. -/
structure NoteListView where
  id : String
  title : String
  content : Option String
  created : Nat
  score : Option Nat
deriving Repr, DecidableEq

/-- Projection of a note in the single-item responses: `select('id title content')`. -/
structure NoteDetailView where
  id : String
  title : String
  content : Option String
deriving Repr, DecidableEq

/-- Build the list-response view of a note with an optional projected score. -/
def noteListView (n : Note) (sc : Option Nat) : NoteListView :=
  { id := n.id, title := n.title, content := n.content, created := n.created, score := sc }

/-- Build the detail view of a note. -/
def noteDetailView (n : Note) : NoteDetailView :=
  { id := n.id, title := n.title, content := n.content }

/-- Response bodies the handlers serialize. -/
inductive Body where
  | noteArr (items : List NoteListView)
  | noteObj (item : NoteDetailView)
  | noteFull (n : Note)
  | folderObj (f : Folder)
deriving Repr, DecidableEq

/-- What a handler does with the response: send JSON (with an optional
Location header), end with a bare status, pass an error to `next`, or call
`next()` with no argument (falling through to the app's 404 stage). -/
inductive Resp where
  | json (status : Nat) (location : Option String) (body : Body)
  | empty (status : Nat)
  | err (status : Option Nat) (msg : String) (code : Option Nat)
  | fallthrough
deriving Repr, DecidableEq

/-- Modelled from the spec: the final HTTP status after the app-level stages
not in the routed modules — a bare `next()` reaches the 404 handler, an error
without a mapped status reaches the generic stage that answers 500. -/
def statusOf : Resp → Nat
  | .json s _ _ => s
  | .empty s => s
  | .err (some s) _ _ => s
  | .err none _ _ => 500
  | .fallthrough => 404

/-- Outcome of one handler invocation: resulting database state, response,
and the storage calls made. -/
structure HResult where
  db : DB
  resp : Resp
  calls : List StorageCall
deriving Repr, DecidableEq

/-! Storage operations. `find?`-style lookups mirror `findById`;
`updateFirst`/`removeFirst` mirror `findByIdAndUpdate`/`findByIdAndRemove`,
which affect the single matching document. -/

/-- Lookup of a note by identifier (`Note.findById`). -/
def dbFindNote (db : DB) (id : String) : Option Note :=
  db.notes.find? (fun n => n.id == id)

/-- Lookup of a folder by identifier (`Folder.findById`). -/
def dbFindFolder (db : DB) (id : String) : Option Folder :=
  db.folders.find? (fun f => f.id == id)

/-- The `$set` applied by the notes PUT handler: `updateItem = { title, content }`. -/
def applyNoteUpdate (n : Note) (title : String) (content : Option String) : Note :=
  { n with title := title, content := content }

/-- Update the first note matching the identifier, returning the updated
document (`new: true`) when one matched. -/
def updateFirstNote (id : String) (title : String) (content : Option String) :
    List Note → Option Note × List Note
  | [] => (none, [])
  | n :: rest =>
    if n.id == id then
      (some (applyNoteUpdate n title content), applyNoteUpdate n title content :: rest)
    else
      let r := updateFirstNote id title content rest
      (r.1, n :: r.2)

/-- Remove the first note matching the identifier, returning the removed
document when one matched. -/
def removeFirstNote (id : String) : List Note → Option Note × List Note
  | [] => (none, [])
  | n :: rest =>
    if n.id == id then (some n, rest)
    else
      let r := removeFirstNote id rest
      (r.1, n :: r.2)

/-- Update the first folder matching the identifier. -/
def updateFirstFolder (id : String) (name : String) :
    List Folder → Option Folder × List Folder
  | [] => (none, [])
  | f :: rest =>
    if f.id == id then
      (some { f with name := name }, { f with name := name } :: rest)
    else
      let r := updateFirstFolder id name rest
      (r.1, f :: r.2)

/-- Remove the first folder matching the identifier. -/
def removeFirstFolder (id : String) : List Folder → Option Folder × List Folder
  | [] => (none, [])
  | f :: rest =>
    if f.id == id then (some f, rest)
    else
      let r := removeFirstFolder id rest
      (r.1, f :: r.2)

/-- Modelled from the spec: note creation (`Note.create`) under the schema in
`models/note.js`, which is outside the source tree — title and content come
from the caller, the folder reference is unset, the tag list empty, and the
creation timestamp auto-assigned. -/
def dbCreateNote (db : DB) (newId : String) (now : Nat) (title : String)
    (content : Option String) : Note × DB :=
  let n : Note := { id := newId, title := title, content := content,
                    folderId := none, tags := [], created := now }
  (n, { db with notes := db.notes ++ [n] })

/-- Modelled from the spec: folder creation (`Folder.create`) under the
storage layer's name-uniqueness index — a duplicate name fails with a
code-11000 error. -/
def dbCreateFolder (db : DB) (newId : String) (name : String) :
    Except StorageErr (Folder × DB) :=
  if db.folders.any (fun f => f.name == name) then
    .error dupKeyErr
  else
    let f : Folder := { id := newId, name := name }
    .ok (f, { db with folders := db.folders ++ [f] })

/-- Modelled from the spec: `Folder.findByIdAndUpdate` under the uniqueness
index — renaming a folder to another existing folder's name fails with a
code-11000 error; an unmatched identifier yields no document and no error. -/
def dbUpdateFolder (db : DB) (id : String) (name : String) :
    Except StorageErr (Option Folder × DB) :=
  match db.folders.find? (fun f => f.id == id) with
  | none => .ok (none, db)
  | some f =>
    if db.folders.any (fun g => g.name == name && g.id != f.id) then
      .error dupKeyErr
    else
      let r := updateFirstFolder id name db.folders
      .ok (r.1, { db with folders := r.2 })

/-- Modelled from the spec: `Note.findByIdAndRemove` — a malformed identifier
fails to cast at the storage layer; otherwise the matching document, if any,
is removed and returned. -/
def dbRemoveNote (db : DB) (id : String) : Except StorageErr (Option Note × List Note) :=
  if !isValidObjectId id then .error castErr
  else .ok (removeFirstNote id db.notes)

/-- Modelled from the spec: `Folder.findByIdAndRemove`, as for notes. -/
def dbRemoveFolder (db : DB) (id : String) : Except StorageErr (Option Folder × List Folder) :=
  if !isValidObjectId id then .error castErr
  else .ok (removeFirstFolder id db.folders)

/-- Descending sort of a list by a numeric key (stable insertion sort). -/
def sortByKeyDesc {α : Type} (key : α → Nat) (l : List α) : List α :=
  List.insertionSort (fun a b => key b ≤ key a) l

/-- Ascending sort of a list by a numeric key (stable insertion sort). -/
def sortByKeyAsc {α : Type} (key : α → Nat) (l : List α) : List α :=
  List.insertionSort (fun a b => key a ≤ key b) l

/-- Relevance of a note for the query, zero when the query has no text filter. -/
def queryScore (score : String → Note → Option Nat) (q : ListQuery) (n : Note) : Nat :=
  match q.textSearch with
  | some s => (score s n).getD 0
  | none => 0

/-- Modelled from the spec: execution of the notes list query by the document
database. `score` abstracts the text index's relevance scoring over
title/content: a note matches the search exactly when its score is defined.
With a text filter only matching notes are returned; the Mongo text-score
meta sort is by descending relevance; the default sort is by creation time. -/
def execNotesFind (db : DB) (score : String → Note → Option Nat) (q : ListQuery) :
    List NoteListView :=
  let base := match q.textSearch with
    | some s => db.notes.filter (fun n => (score s n).isSome)
    | none => db.notes
  let sorted := match q.sort with
    | .byCreated => sortByKeyAsc Note.created base
    | .byScoreDesc => sortByKeyDesc (queryScore score q) base
  sorted.map (fun n =>
    noteListView n (if q.scoreProjection then
        match q.textSearch with
        | some s => score s n
        | none => none
      else none))

/-! The route handlers. Each mirrors one `router.<verb>` callback. -/

/-- `router.get('/notes')`: build the filter/projection/sort from the
optional `searchTerm`, run the query, answer 200 with the result array. -/
def notesIndex (db : DB) (score : String → Note → Option Nat)
    (searchTerm : Option String) : HResult :=
  let q := buildNotesQuery searchTerm
  { db := db
    resp := .json 200 none (.noteArr (execNotesFind db score q))
    calls := [.findNotes q] }

/-- `router.get('/notes/:id')`: reject a malformed id with a 400 error before
any storage access; answer 200 with the detail view when found, otherwise
call `next()`. -/
def notesShow (db : DB) (id : String) : HResult :=
  if !isValidObjectId id then
    { db := db, resp := .err (some 400) "The `id` is not valid" none, calls := [] }
  else
    match dbFindNote db id with
    | some n =>
      { db := db, resp := .json 200 none (.noteObj (noteDetailView n)),
        calls := [.findNoteById id] }
    | none =>
      { db := db, resp := .fallthrough, calls := [.findNoteById id] }

/-- `router.post('/notes')`: destructure only `title` and `content` from the
body; reject a falsy title with a 400 error before any storage access;
otherwise create the document and answer 201 with a Location header
`originalUrl/id` and the created record. -/
def notesCreate (db : DB) (body : NoteBody) (newId : String) (now : Nat)
    (originalUrl : String) : HResult :=
  if !jsTruthy body.title then
    { db := db, resp := .err (some 400) "Missing `title` in request body" none, calls := [] }
  else
    let title := body.title.getD ""
    let r := dbCreateNote db newId now title body.content
    { db := r.2
      resp := .json 201 (some (originalUrl ++ "/" ++ r.1.id)) (.noteFull r.1)
      calls := [.createNote title body.content] }

/-- `router.put('/notes/:id')`: reject a falsy title, then a malformed id,
each with a 400 error before any storage access; the update document is
`{ title, content }`; answer 200 with the updated record or call `next()`. -/
def notesUpdate (db : DB) (id : String) (body : NoteBody) : HResult :=
  if !jsTruthy body.title then
    { db := db, resp := .err (some 400) "Missing `title` in request body" none, calls := [] }
  else if !isValidObjectId id then
    { db := db, resp := .err (some 400) "The `id` is not valid" none, calls := [] }
  else
    let title := body.title.getD ""
    let r := updateFirstNote id title body.content db.notes
    match r.1 with
    | some n' =>
      { db := { db with notes := r.2 },
        resp := .json 200 none (.noteObj (noteDetailView n')),
        calls := [.updateNote id title body.content] }
    | none =>
      { db := { db with notes := r.2 }, resp := .fallthrough,
        calls := [.updateNote id title body.content] }

/-- `router.delete('/notes/:id')`: no identifier validation — the id goes
straight to `findByIdAndRemove`; 204 when a document was removed, `next()`
when none matched, `next(err)` on a storage failure. -/
def notesDelete (db : DB) (id : String) : HResult :=
  match dbRemoveNote db id with
  | .error e =>
    { db := db, resp := .err none e.msg e.code, calls := [.removeNote id] }
  | .ok (some _, notes') =>
    { db := { db with notes := notes' }, resp := .empty 204, calls := [.removeNote id] }
  | .ok (none, _) =>
    { db := db, resp := .fallthrough, calls := [.removeNote id] }

/-- `router.get('/folders/:id')`: as for notes, with the full folder document
as the body. -/
def foldersShow (db : DB) (id : String) : HResult :=
  if !isValidObjectId id then
    { db := db, resp := .err (some 400) "The `id` is not valid" none, calls := [] }
  else
    match dbFindFolder db id with
    | some f =>
      { db := db, resp := .json 200 none (.folderObj f), calls := [.findFolderById id] }
    | none =>
      { db := db, resp := .fallthrough, calls := [.findFolderById id] }

/-- `router.post('/folders')`: reject a falsy name with a 400 error before any
storage access; on a code-11000 storage failure answer 400 "The folder name
already exists"; otherwise 201 with Location and the created record. -/
def foldersCreate (db : DB) (body : FolderBody) (newId : String)
    (originalUrl : String) : HResult :=
  if !jsTruthy body.name then
    { db := db, resp := .err (some 400) "Missing `name` in request body" none, calls := [] }
  else
    let name := body.name.getD ""
    match dbCreateFolder db newId name with
    | .ok (f, db') =>
      { db := db'
        resp := .json 201 (some (originalUrl ++ "/" ++ f.id)) (.folderObj f)
        calls := [.createFolder name] }
    | .error e =>
      if e.code == some 11000 then
        { db := db, resp := .err (some 400) "The folder name already exists" none,
          calls := [.createFolder name] }
      else
        { db := db, resp := .err none e.msg e.code, calls := [.createFolder name] }

/-- `router.put('/folders/:id')`: reject a falsy name, then a malformed id,
each with a 400 error before any storage access; a storage failure is passed
to `next(err)` unmapped — this catch has no code-11000 branch. -/
def foldersUpdate (db : DB) (id : String) (body : FolderBody) : HResult :=
  if !jsTruthy body.name then
    { db := db, resp := .err (some 400) "Missing `name` in request body" none, calls := [] }
  else if !isValidObjectId id then
    { db := db, resp := .err (some 400) "The `id` is not valid" none, calls := [] }
  else
    let name := body.name.getD ""
    match dbUpdateFolder db id name with
    | .ok (some f', db') =>
      { db := db', resp := .json 200 none (.folderObj f'),
        calls := [.updateFolder id name] }
    | .ok (none, db') =>
      { db := db', resp := .fallthrough, calls := [.updateFolder id name] }
    | .error e =>
      { db := db, resp := .err none e.msg e.code, calls := [.updateFolder id name] }

/-- `router.delete('/folders/:id')`: no identifier validation, and the `then`
branch ignores the removal result — every successful storage round trip
answers 204, whether or not a document was removed. -/
def foldersDelete (db : DB) (id : String) : HResult :=
  match dbRemoveFolder db id with
  | .error e =>
    { db := db, resp := .err none e.msg e.code, calls := [.removeFolder id] }
  | .ok (_, folders') =>
    { db := { db with folders := folders' }, resp := .empty 204, calls := [.removeFolder id] }

end Noteful

namespace Noteful

/-! Helper lemmas about the sorting and first-match storage operations. -/

theorem sortByKeyDesc_perm {α : Type} (key : α → Nat) (l : List α) :
    List.Perm (sortByKeyDesc key l) l :=
  List.perm_insertionSort _ l

theorem sortByKeyDesc_sorted {α : Type} (key : α → Nat) (l : List α) :
    List.Pairwise (fun a b => key b ≤ key a) (sortByKeyDesc key l) := by
  haveI : IsTotal α (fun a b => key b ≤ key a) := ⟨fun a b => Nat.le_total (key b) (key a)⟩
  haveI : IsTrans α (fun a b => key b ≤ key a) := ⟨fun _ _ _ hab hbc => Nat.le_trans hbc hab⟩
  exact List.sorted_insertionSort _ l

theorem sortByKeyAsc_perm {α : Type} (key : α → Nat) (l : List α) :
    List.Perm (sortByKeyAsc key l) l :=
  List.perm_insertionSort _ l

theorem sortByKeyAsc_sorted {α : Type} (key : α → Nat) (l : List α) :
    List.Pairwise (fun a b => key a ≤ key b) (sortByKeyAsc key l) := by
  haveI : IsTotal α (fun a b => key a ≤ key b) := ⟨fun a b => Nat.le_total (key a) (key b)⟩
  haveI : IsTrans α (fun a b => key a ≤ key b) := ⟨fun _ _ _ hab hbc => Nat.le_trans hab hbc⟩
  exact List.sorted_insertionSort _ l

theorem updateFirstNote_found (id title : String) (content : Option String)
    (l : List Note) (n : Note) (h : l.find? (fun m => m.id == id) = some n) :
    (updateFirstNote id title content l).1 = some (applyNoteUpdate n title content) ∧
    (updateFirstNote id title content l).2.find? (fun m => m.id == id)
      = some (applyNoteUpdate n title content) := by
  induction l with
  | nil => simp at h
  | cons a rest ih =>
    by_cases ha : (a.id == id) = true
    · rw [List.find?_cons_of_pos (p := fun m : Note => m.id == id) _ ha] at h
      rw [Option.some.injEq] at h
      subst h
      constructor
      · simp [updateFirstNote, ha]
      · have hid : ((applyNoteUpdate a title content).id == id) = true := by
          simpa [applyNoteUpdate] using ha
        have h2 : (updateFirstNote id title content (a :: rest)).2
            = applyNoteUpdate a title content :: rest := by
          simp [updateFirstNote, ha]
        rw [h2, List.find?_cons_of_pos (p := fun m : Note => m.id == id) _ hid]
    · rw [List.find?_cons_of_neg (p := fun m : Note => m.id == id) _ ha] at h
      obtain ⟨ih1, ih2⟩ := ih h
      constructor
      · simp [updateFirstNote, ha, ih1]
      · have h2 : (updateFirstNote id title content (a :: rest)).2
            = a :: (updateFirstNote id title content rest).2 := by
          simp [updateFirstNote, ha]
        rw [h2, List.find?_cons_of_neg (p := fun m : Note => m.id == id) _ ha]
        exact ih2

theorem updateFirstNote_not_found (id title : String) (content : Option String)
    (l : List Note) (h : l.find? (fun m => m.id == id) = none) :
    (updateFirstNote id title content l).1 = none := by
  induction l with
  | nil => simp [updateFirstNote]
  | cons a rest ih =>
    by_cases ha : (a.id == id) = true
    · rw [List.find?_cons_of_pos (p := fun m : Note => m.id == id) _ ha] at h; cases h
    · rw [List.find?_cons_of_neg (p := fun m : Note => m.id == id) _ ha] at h
      simp [updateFirstNote, ha, ih h]

theorem removeFirstNote_not_found (id : String) (l : List Note)
    (h : l.find? (fun m => m.id == id) = none) :
    (removeFirstNote id l).1 = none := by
  induction l with
  | nil => simp [removeFirstNote]
  | cons a rest ih =>
    by_cases ha : (a.id == id) = true
    · rw [List.find?_cons_of_pos (p := fun m : Note => m.id == id) _ ha] at h; cases h
    · rw [List.find?_cons_of_neg (p := fun m : Note => m.id == id) _ ha] at h
      simp [removeFirstNote, ha, ih h]

end Noteful

namespace Noteful

/-- Claim C2: for every identifier that is not a well-formed 24-hex-character
ObjectId, GET /api/notes/:id, PUT /api/notes/:id (with non-empty title),
GET /api/folders/:id and PUT /api/folders/:id (with non-empty name) respond
with status 400 and the message "The `id` is not valid". -/
theorem invalid_id_rejected_with_400 (db : DB) (id : String)
    (nb : NoteBody) (fb : FolderBody)
    (hid : isValidObjectId id = false)
    (ht : jsTruthy nb.title = true) (hn : jsTruthy fb.name = true) :
    (notesShow db id).resp = .err (some 400) "The `id` is not valid" none ∧
    (notesUpdate db id nb).resp = .err (some 400) "The `id` is not valid" none ∧
    (foldersShow db id).resp = .err (some 400) "The `id` is not valid" none ∧
    (foldersUpdate db id fb).resp = .err (some 400) "The `id` is not valid" none := by
  simp [notesShow, notesUpdate, foldersShow, foldersUpdate, hid, ht, hn]

/-- Witness for C2 at the tests' malformed identifier `99-99-99`. -/
theorem invalid_id_rejected_with_400_w :
    isValidObjectId "99-99-99" = false ∧
    jsTruthy (some "t") = true ∧ jsTruthy (some "f") = true ∧
    (notesShow ⟨[], []⟩ "99-99-99").resp = .err (some 400) "The `id` is not valid" none ∧
    (notesUpdate ⟨[], []⟩ "99-99-99" ⟨some "t", none, none, none⟩).resp
      = .err (some 400) "The `id` is not valid" none ∧
    (foldersShow ⟨[], []⟩ "99-99-99").resp = .err (some 400) "The `id` is not valid" none ∧
    (foldersUpdate ⟨[], []⟩ "99-99-99" ⟨some "f"⟩).resp
      = .err (some 400) "The `id` is not valid" none :=
  ⟨by decide, by decide, by decide,
    invalid_id_rejected_with_400 ⟨[], []⟩ "99-99-99" ⟨some "t", none, none, none⟩ ⟨some "f"⟩
      (by decide) (by decide) (by decide)⟩

/-- Claim C3 (amended): for GET and PUT on /api/notes/:id and /api/folders/:id
a malformed identifier short-circuits the request with a 400 before any
storage call; the DELETE handlers are not covered (they pass the identifier
to storage unvalidated). -/
theorem invalid_id_no_storage_access (db : DB) (id : String)
    (nb : NoteBody) (fb : FolderBody)
    (hid : isValidObjectId id = false) :
    ((notesShow db id).calls = [] ∧ statusOf (notesShow db id).resp = 400) ∧
    ((notesUpdate db id nb).calls = [] ∧ statusOf (notesUpdate db id nb).resp = 400) ∧
    ((foldersShow db id).calls = [] ∧ statusOf (foldersShow db id).resp = 400) ∧
    ((foldersUpdate db id fb).calls = [] ∧ statusOf (foldersUpdate db id fb).resp = 400) := by
  cases htt : jsTruthy nb.title <;> cases hnn : jsTruthy fb.name <;>
    simp [notesShow, notesUpdate, foldersShow, foldersUpdate, hid, htt, hnn, statusOf]

/-- Witness for C3 (amended) at the malformed identifier `99-99-99`. -/
theorem invalid_id_no_storage_access_w :
    isValidObjectId "99-99-99" = false ∧
    (((notesShow ⟨[], []⟩ "99-99-99").calls = [] ∧
        statusOf (notesShow ⟨[], []⟩ "99-99-99").resp = 400) ∧
     ((notesUpdate ⟨[], []⟩ "99-99-99" ⟨some "t", none, none, none⟩).calls = [] ∧
        statusOf (notesUpdate ⟨[], []⟩ "99-99-99" ⟨some "t", none, none, none⟩).resp = 400) ∧
     ((foldersShow ⟨[], []⟩ "99-99-99").calls = [] ∧
        statusOf (foldersShow ⟨[], []⟩ "99-99-99").resp = 400) ∧
     ((foldersUpdate ⟨[], []⟩ "99-99-99" ⟨some "f"⟩).calls = [] ∧
        statusOf (foldersUpdate ⟨[], []⟩ "99-99-99" ⟨some "f"⟩).resp = 400)) :=
  ⟨by decide,
    invalid_id_no_storage_access ⟨[], []⟩ "99-99-99" ⟨some "t", none, none, none⟩ ⟨some "f"⟩
      (by decide)⟩

/-- Counterexample to C3 as stated: both DELETE handlers reach the storage
layer with the malformed identifier `99-99-99` — the claim that no handler
ever reaches storage with a malformed identifier is false. -/
theorem delete_reaches_storage_with_invalid_id :
    isValidObjectId "99-99-99" = false ∧
    (notesDelete ⟨[], []⟩ "99-99-99").calls = [.removeNote "99-99-99"] ∧
    (foldersDelete ⟨[], []⟩ "99-99-99").calls = [.removeFolder "99-99-99"] := by
  decide

/-- Claim C6: a falsy `title` (notes) or `name` (folders) on POST or PUT is
rejected with a 400 and the corresponding "Missing `X` in request body"
message, leaving the collections unchanged and making no storage call. -/
theorem missing_required_field_rejected (db : DB) (id : String)
    (nb : NoteBody) (fb : FolderBody)
    (newId fid : String) (now : Nat) (url furl : String)
    (ht : jsTruthy nb.title = false) (hn : jsTruthy fb.name = false) :
    notesCreate db nb newId now url
      = ⟨db, .err (some 400) "Missing `title` in request body" none, []⟩ ∧
    notesUpdate db id nb
      = ⟨db, .err (some 400) "Missing `title` in request body" none, []⟩ ∧
    foldersCreate db fb fid furl
      = ⟨db, .err (some 400) "Missing `name` in request body" none, []⟩ ∧
    foldersUpdate db id fb
      = ⟨db, .err (some 400) "Missing `name` in request body" none, []⟩ := by
  simp [notesCreate, notesUpdate, foldersCreate, foldersUpdate, ht, hn]

/-- Witness for C6: an absent title and an empty-string name are both falsy. -/
theorem missing_required_field_rejected_w :
    jsTruthy (none : Option String) = false ∧ jsTruthy (some "") = false ∧
    (notesCreate ⟨[], []⟩ ⟨none, some "c", none, none⟩ "aaaaaaaaaaaaaaaaaaaaaaaa" 7 "/api/notes"
      = ⟨⟨[], []⟩, .err (some 400) "Missing `title` in request body" none, []⟩ ∧
    notesUpdate ⟨[], []⟩ "aaaaaaaaaaaaaaaaaaaaaaaa" ⟨none, some "c", none, none⟩
      = ⟨⟨[], []⟩, .err (some 400) "Missing `title` in request body" none, []⟩ ∧
    foldersCreate ⟨[], []⟩ ⟨some ""⟩ "bbbbbbbbbbbbbbbbbbbbbbbb" "/api/folders"
      = ⟨⟨[], []⟩, .err (some 400) "Missing `name` in request body" none, []⟩ ∧
    foldersUpdate ⟨[], []⟩ "aaaaaaaaaaaaaaaaaaaaaaaa" ⟨some ""⟩
      = ⟨⟨[], []⟩, .err (some 400) "Missing `name` in request body" none, []⟩) :=
  ⟨by decide, by decide,
    missing_required_field_rejected ⟨[], []⟩ "aaaaaaaaaaaaaaaaaaaaaaaa"
      ⟨none, some "c", none, none⟩ ⟨some ""⟩ "aaaaaaaaaaaaaaaaaaaaaaaa" "bbbbbbbbbbbbbbbbbbbbbbbb"
      7 "/api/notes" "/api/folders" (by decide) (by decide)⟩

/-- Claim C9: a present-but-empty searchTerm is falsy, so the list handler
builds the same query as when the parameter is absent — no text filter, no
score projection, default creation-time sort — and behaves identically. -/
theorem empty_searchTerm_behaves_as_absent (db : DB) (score : String → Note → Option Nat) :
    buildNotesQuery (some "")
      = { textSearch := none, scoreProjection := false, sort := .byCreated } ∧
    notesIndex db score (some "") = notesIndex db score none :=
  ⟨rfl, rfl⟩

/-- Claim C10: POST /api/notes builds the new document from only the body's
title and content — the created record carries no folder reference and an
empty tag list, and the handler result does not depend on the body's
folderId or tags fields at all. -/
theorem notesCreate_ignores_folderId_and_tags (db : DB) (nb : NoteBody)
    (newId url : String) (now : Nat) (fid : Option String) (tg : Option (List String))
    (ht : jsTruthy nb.title = true) :
    (notesCreate db nb newId now url).db.notes
      = db.notes ++ [{ id := newId, title := nb.title.getD "", content := nb.content,
                       folderId := none, tags := [], created := now }] ∧
    notesCreate db { nb with folderId := fid, tags := tg } newId now url
      = notesCreate db nb newId now url := by
  constructor
  · simp [notesCreate, dbCreateNote, ht]
  · simp [notesCreate, dbCreateNote, ht]

/-- Witness for C10: a body that supplies folderId and tags produces the same
created record as one that does not. -/
theorem notesCreate_ignores_folderId_and_tags_w :
    jsTruthy (some "cats") = true ∧
    ((notesCreate ⟨[], []⟩ ⟨some "cats", some "c", some "fff", some ["tag1"]⟩
        "aaaaaaaaaaaaaaaaaaaaaaaa" 7 "/api/notes").db.notes
      = [] ++ [{ id := "aaaaaaaaaaaaaaaaaaaaaaaa", title := (some "cats").getD "",
                 content := some "c", folderId := none, tags := [], created := 7 }] ∧
     notesCreate ⟨[], []⟩ ⟨some "cats", some "c", some "other", some []⟩
        "aaaaaaaaaaaaaaaaaaaaaaaa" 7 "/api/notes"
      = notesCreate ⟨[], []⟩ ⟨some "cats", some "c", some "fff", some ["tag1"]⟩
          "aaaaaaaaaaaaaaaaaaaaaaaa" 7 "/api/notes") := by
  refine ⟨by decide, ?_⟩
  have h := notesCreate_ignores_folderId_and_tags ⟨[], []⟩
    ⟨some "cats", some "c", some "fff", some ["tag1"]⟩
    "aaaaaaaaaaaaaaaaaaaaaaaa" "/api/notes" 7 (some "other") (some []) (by decide)
  exact ⟨h.1, h.2⟩

end Noteful

namespace Noteful

/-- Claim C4 (amended): PUT /api/notes/:id with a non-empty title and a
well-formed identifier matching an existing note replaces only the note's
title and content from the request body and returns the updated record; the
folder reference and tags are left unchanged (the update document is
`{ title, content }`). -/
theorem notesUpdate_replaces_title_content (db : DB) (id : String)
    (nb : NoteBody) (n : Note) (t : String)
    (ht : nb.title = some t) (hne : t ≠ "")
    (hid : isValidObjectId id = true)
    (hfind : dbFindNote db id = some n) :
    ∃ n', dbFindNote (notesUpdate db id nb).db id = some n' ∧
      (notesUpdate db id nb).resp = .json 200 none (.noteObj (noteDetailView n')) ∧
      n'.id = n.id ∧ n'.title = t ∧ n'.content = nb.content ∧
      n'.folderId = n.folderId ∧ n'.tags = n.tags ∧ n'.created = n.created := by
  have htt : jsTruthy nb.title = true := by simp [jsTruthy, ht, hne]
  obtain ⟨h1, h2⟩ := updateFirstNote_found id (nb.title.getD "") nb.content db.notes n hfind
  refine ⟨applyNoteUpdate n (nb.title.getD "") nb.content, ?_, ?_, ?_⟩
  · simpa [notesUpdate, htt, hid, dbFindNote, h1] using h2
  · simp [notesUpdate, htt, hid, h1]
  · simp [applyNoteUpdate, ht]

/-- Stored note used by the concrete PUT scenarios: it sits in folder f1 and
carries one tag. -/
def noteOld : Note :=
  { id := "aaaaaaaaaaaaaaaaaaaaaaaa", title := "old", content := some "c",
    folderId := some "f1", tags := ["t1"], created := 3 }

/-- Database holding just `noteOld`. -/
def dbOne : DB := { notes := [noteOld], folders := [] }

/-- PUT body that tries to move the note to folder f2 and clear its tags. -/
def bodyMove : NoteBody :=
  { title := some "new", content := some "woof", folderId := some "f2", tags := some [] }

/-- Witness for C4 (amended) at the concrete stored note `noteOld`. -/
theorem notesUpdate_replaces_title_content_w :
    bodyMove.title = some "new" ∧ ("new" : String) ≠ "" ∧
    isValidObjectId "aaaaaaaaaaaaaaaaaaaaaaaa" = true ∧
    dbFindNote dbOne "aaaaaaaaaaaaaaaaaaaaaaaa" = some noteOld ∧
    (∃ n', dbFindNote (notesUpdate dbOne "aaaaaaaaaaaaaaaaaaaaaaaa" bodyMove).db
        "aaaaaaaaaaaaaaaaaaaaaaaa" = some n' ∧
      (notesUpdate dbOne "aaaaaaaaaaaaaaaaaaaaaaaa" bodyMove).resp
        = .json 200 none (.noteObj (noteDetailView n')) ∧
      n'.id = noteOld.id ∧ n'.title = "new" ∧ n'.content = bodyMove.content ∧
      n'.folderId = noteOld.folderId ∧ n'.tags = noteOld.tags ∧ n'.created = noteOld.created) :=
  ⟨rfl, by decide, by decide, by decide,
    notesUpdate_replaces_title_content dbOne "aaaaaaaaaaaaaaaaaaaaaaaa" bodyMove noteOld "new"
      rfl (by decide) (by decide) (by decide)⟩

/-- Counterexample to C4 as stated: updating `noteOld` with a body that
supplies folderId f2 and an empty tag list leaves the stored folder
reference (still f1) and tags (still t1) untouched — the handler does not
perform a full replace of the folder reference and tags. -/
theorem notesUpdate_not_full_replace :
    ¬ ((dbFindNote (notesUpdate dbOne "aaaaaaaaaaaaaaaaaaaaaaaa" bodyMove).db
          "aaaaaaaaaaaaaaaaaaaaaaaa").map Note.folderId = some bodyMove.folderId ∧
       (dbFindNote (notesUpdate dbOne "aaaaaaaaaaaaaaaaaaaaaaaa" bodyMove).db
          "aaaaaaaaaaaaaaaaaaaaaaaa").map Note.tags = some (bodyMove.tags.getD [])) := by
  decide

end Noteful

namespace Noteful

/-- Claim C7 (amended): a folder Create that triggers the storage layer's
name-uniqueness violation is mapped to 400 "The folder name already exists";
a folder Update that triggers the same violation is forwarded unmapped to
the generic error stage, which answers 500. -/
theorem folders_dup_name_mapping (db : DB) (fb : FolderBody)
    (nm newId url id : String) (f : Folder)
    (hn : fb.name = some nm) (hne : nm ≠ "")
    (hdup : db.folders.any (fun g => g.name == nm) = true)
    (hid : isValidObjectId id = true)
    (hfind : db.folders.find? (fun g => g.id == id) = some f)
    (hother : db.folders.any (fun g => g.name == nm && g.id != f.id) = true) :
    (foldersCreate db fb newId url).resp
      = .err (some 400) "The folder name already exists" none ∧
    (foldersUpdate db id fb).resp = .err none dupKeyErr.msg dupKeyErr.code ∧
    statusOf (foldersUpdate db id fb).resp = 500 := by
  have htt : jsTruthy (some nm) = true := by simp [jsTruthy, hne]
  refine ⟨?_, ?_, ?_⟩
  · simp [foldersCreate, dbCreateFolder, htt, hn, hdup, dupKeyErr]
  · simp [foldersUpdate, dbUpdateFolder, htt, hn, hid, hfind, hother, dupKeyErr]
  · simp [foldersUpdate, dbUpdateFolder, htt, hn, hid, hfind, hother, dupKeyErr, statusOf]

/-- Folder A of the concrete duplicate-name scenario. -/
def folderA : Folder := { id := "aaaaaaaaaaaaaaaaaaaaaaaa", name := "A" }

/-- Folder B of the concrete duplicate-name scenario. -/
def folderB : Folder := { id := "bbbbbbbbbbbbbbbbbbbbbbbb", name := "B" }

/-- Database holding the two folders A and B. -/
def dbTwoFolders : DB := { notes := [], folders := [folderA, folderB] }

/-- Witness for C7 (amended): creating another "B", and renaming A to "B". -/
theorem folders_dup_name_mapping_w :
    (⟨some "B"⟩ : FolderBody).name = some "B" ∧ ("B" : String) ≠ "" ∧
    dbTwoFolders.folders.any (fun g => g.name == "B") = true ∧
    isValidObjectId "aaaaaaaaaaaaaaaaaaaaaaaa" = true ∧
    dbTwoFolders.folders.find? (fun g => g.id == "aaaaaaaaaaaaaaaaaaaaaaaa") = some folderA ∧
    dbTwoFolders.folders.any (fun g => g.name == "B" && g.id != folderA.id) = true ∧
    ((foldersCreate dbTwoFolders ⟨some "B"⟩ "cccccccccccccccccccccccc" "/api/folders").resp
        = .err (some 400) "The folder name already exists" none ∧
      (foldersUpdate dbTwoFolders "aaaaaaaaaaaaaaaaaaaaaaaa" ⟨some "B"⟩).resp
        = .err none dupKeyErr.msg dupKeyErr.code ∧
      statusOf (foldersUpdate dbTwoFolders "aaaaaaaaaaaaaaaaaaaaaaaa" ⟨some "B"⟩).resp = 500) :=
  ⟨rfl, by decide, by decide, by decide, by decide, by decide,
    folders_dup_name_mapping dbTwoFolders ⟨some "B"⟩ "B" "cccccccccccccccccccccccc"
      "/api/folders" "aaaaaaaaaaaaaaaaaaaaaaaa" folderA rfl (by decide) (by decide)
      (by decide) (by decide) (by decide)⟩

/-- Counterexample to C7 as stated: renaming folder A to the existing name
"B" triggers the uniqueness violation, but the Update handler does not map
it to the 400 "The folder name already exists" response (it forwards the
raw storage error, which the generic stage answers with 500). -/
theorem foldersUpdate_dup_not_mapped :
    (foldersUpdate dbTwoFolders "aaaaaaaaaaaaaaaaaaaaaaaa" ⟨some "B"⟩).resp
      ≠ .err (some 400) "The folder name already exists" none ∧
    statusOf (foldersUpdate dbTwoFolders "aaaaaaaaaaaaaaaaaaaaaaaa" ⟨some "B"⟩).resp = 500 := by
  decide

/-- Claim C8 (amended): for a well-formed identifier matching no stored
record, GET, PUT and DELETE on /api/notes/:id and GET and PUT on
/api/folders/:id answer 404; DELETE on /api/folders/:id instead answers 204
unconditionally, because its success branch ignores the removal result. -/
theorem wellformed_missing_id_statuses (db : DB) (id : String)
    (nb : NoteBody) (fb : FolderBody)
    (hid : isValidObjectId id = true)
    (hnote : dbFindNote db id = none) (hfold : dbFindFolder db id = none)
    (ht : jsTruthy nb.title = true) (hn : jsTruthy fb.name = true) :
    statusOf (notesShow db id).resp = 404 ∧
    statusOf (notesUpdate db id nb).resp = 404 ∧
    statusOf (notesDelete db id).resp = 404 ∧
    statusOf (foldersShow db id).resp = 404 ∧
    statusOf (foldersUpdate db id fb).resp = 404 ∧
    statusOf (foldersDelete db id).resp = 204 := by
  have hnote' : db.notes.find? (fun m => m.id == id) = none := hnote
  have hfold' : db.folders.find? (fun g => g.id == id) = none := hfold
  have h1 : (updateFirstNote id (nb.title.getD "") nb.content db.notes).1 = none :=
    updateFirstNote_not_found id (nb.title.getD "") nb.content db.notes hnote'
  have h2 : (removeFirstNote id db.notes).1 = none :=
    removeFirstNote_not_found id db.notes hnote'
  refine ⟨?_, ?_, ?_, ?_, ?_, ?_⟩
  · simp [notesShow, hid, hnote, statusOf]
  · simp [notesUpdate, ht, hid, h1, statusOf]
  · rcases hrm : removeFirstNote id db.notes with ⟨r1, r2⟩
    rw [hrm] at h2
    subst h2
    simp [notesDelete, dbRemoveNote, hid, hrm, statusOf]
  · simp [foldersShow, hid, hfold, statusOf]
  · simp [foldersUpdate, dbUpdateFolder, hn, hid, hfold', statusOf]
  · simp [foldersDelete, dbRemoveFolder, hid, statusOf]

/-- Witness for C8 (amended) at the well-formed absent identifier of 24 zeros
over the empty database. -/
theorem wellformed_missing_id_statuses_w :
    isValidObjectId "000000000000000000000000" = true ∧
    dbFindNote ⟨[], []⟩ "000000000000000000000000" = none ∧
    dbFindFolder ⟨[], []⟩ "000000000000000000000000" = none ∧
    jsTruthy (some "t") = true ∧ jsTruthy (some "f") = true ∧
    (statusOf (notesShow ⟨[], []⟩ "000000000000000000000000").resp = 404 ∧
     statusOf (notesUpdate ⟨[], []⟩ "000000000000000000000000" ⟨some "t", none, none, none⟩).resp
       = 404 ∧
     statusOf (notesDelete ⟨[], []⟩ "000000000000000000000000").resp = 404 ∧
     statusOf (foldersShow ⟨[], []⟩ "000000000000000000000000").resp = 404 ∧
     statusOf (foldersUpdate ⟨[], []⟩ "000000000000000000000000" ⟨some "f"⟩).resp = 404 ∧
     statusOf (foldersDelete ⟨[], []⟩ "000000000000000000000000").resp = 204) :=
  ⟨by decide, by decide, by decide, by decide, by decide,
    wellformed_missing_id_statuses ⟨[], []⟩ "000000000000000000000000"
      ⟨some "t", none, none, none⟩ ⟨some "f"⟩ (by decide) (by decide) (by decide)
      (by decide) (by decide)⟩

/-- Counterexample to C8 as stated: DELETE /api/folders/:id with the
well-formed identifier of 24 zeros, which matches no stored folder, answers
204 rather than 404. -/
theorem foldersDelete_missing_id_not_404 :
    isValidObjectId "000000000000000000000000" = true ∧
    dbFindFolder ⟨[], []⟩ "000000000000000000000000" = none ∧
    statusOf (foldersDelete ⟨[], []⟩ "000000000000000000000000").resp ≠ 404 := by
  decide

end Noteful

namespace Noteful

/-- Claim C5: POST /api/notes with a non-empty title answers 201 with a
Location header `originalUrl/newId` and a body carrying the submitted title
and content plus the generated identifier, and a subsequent GET by that
identifier returns the same title and content. -/
theorem notesCreate_then_get (db : DB) (nb : NoteBody) (newId url : String)
    (now : Nat) (t : String)
    (ht : nb.title = some t) (hne : t ≠ "")
    (hvalid : isValidObjectId newId = true)
    (hfresh : db.notes.find? (fun n => n.id == newId) = none) :
    ∃ n : Note,
      (notesCreate db nb newId now url).resp
        = .json 201 (some (url ++ "/" ++ newId)) (.noteFull n) ∧
      n.id = newId ∧ n.title = t ∧ n.content = nb.content ∧
      (notesShow (notesCreate db nb newId now url).db newId).resp
        = .json 200 none (.noteObj { id := newId, title := t, content := nb.content }) := by
  have htt : jsTruthy (some t) = true := by simp [jsTruthy, hne]
  have hdb : (notesCreate db nb newId now url).db
      = { db with notes := db.notes ++
          [{ id := newId, title := t, content := nb.content, folderId := none,
             tags := [], created := now }] } := by
    simp [notesCreate, dbCreateNote, htt, ht]
  have hfind : dbFindNote (notesCreate db nb newId now url).db newId
      = some { id := newId, title := t, content := nb.content, folderId := none,
               tags := [], created := now } := by
    rw [hdb]
    simp [dbFindNote, List.find?_append, hfresh]
  refine ⟨{ id := newId, title := t, content := nb.content, folderId := none,
            tags := [], created := now }, ?_, rfl, rfl, rfl, ?_⟩
  · simp [notesCreate, dbCreateNote, htt, ht]
  · simp [notesShow, hvalid, hfind, noteDetailView]

/-- Creation payload of the concrete POST-then-GET scenario. -/
def nbCats : NoteBody := { title := some "cats", content := some "lorem",
                           folderId := none, tags := none }

/-- Detail view the concrete GET is expected to return. -/
def catsDetail : NoteDetailView := { id := "aaaaaaaaaaaaaaaaaaaaaaaa", title := "cats",
                                     content := nbCats.content }

/-- Witness for C5 with the concrete payload `nbCats` over the empty database. -/
theorem notesCreate_then_get_w :
    nbCats.title = some "cats" ∧ ("cats" : String) ≠ "" ∧
    isValidObjectId "aaaaaaaaaaaaaaaaaaaaaaaa" = true ∧
    (DB.notes ⟨[], []⟩).find? (fun n => n.id == "aaaaaaaaaaaaaaaaaaaaaaaa") = none ∧
    (∃ n : Note,
      (notesCreate ⟨[], []⟩ nbCats "aaaaaaaaaaaaaaaaaaaaaaaa" 5 "/api/notes").resp
        = .json 201 (some ("/api/notes" ++ "/" ++ "aaaaaaaaaaaaaaaaaaaaaaaa")) (.noteFull n) ∧
      n.id = "aaaaaaaaaaaaaaaaaaaaaaaa" ∧ n.title = "cats" ∧ n.content = nbCats.content ∧
      (notesShow (notesCreate ⟨[], []⟩ nbCats "aaaaaaaaaaaaaaaaaaaaaaaa" 5 "/api/notes").db
          "aaaaaaaaaaaaaaaaaaaaaaaa").resp = .json 200 none (.noteObj catsDetail)) :=
  ⟨rfl, by decide, by decide, by decide,
    notesCreate_then_get ⟨[], []⟩ nbCats "aaaaaaaaaaaaaaaaaaaaaaaa" "/api/notes" 5 "cats"
      rfl (by decide) (by decide) (by decide)⟩

end Noteful

namespace Noteful

/-- Evaluation of the list query built from a non-empty search term: keep the
matching notes, sort them by descending relevance, project the score. -/
theorem execNotesFind_search (db : DB) (score : String → Note → Option Nat) (s : String) :
    execNotesFind db score { textSearch := some s, scoreProjection := true, sort := .byScoreDesc }
      = (sortByKeyDesc (fun n => (score s n).getD 0)
          (db.notes.filter (fun n => (score s n).isSome))).map
          (fun n => noteListView n (score s n)) := rfl

/-- Evaluation of the default list query: all notes, sorted by creation time,
no score projection. -/
theorem execNotesFind_default (db : DB) (score : String → Note → Option Nat) :
    execNotesFind db score { textSearch := none, scoreProjection := false, sort := .byCreated }
      = (sortByKeyAsc Note.created db.notes).map (fun n => noteListView n none) := rfl

/-- Specification of the list endpoint at a database, scoring function and
search term: with the search term the response is 200 with exactly the
matching notes (score projected) in descending-relevance order; without it,
200 with all notes in ascending creation order; in both cases an empty match
set yields the empty array, still with status 200. -/
def notesIndexSpec (db : DB) (score : String → Note → Option Nat) (s : String) : Prop :=
  (∃ items,
    (notesIndex db score (some s)).resp = .json 200 none (.noteArr items) ∧
    List.Perm items ((db.notes.filter (fun n => (score s n).isSome)).map
      (fun n => noteListView n (score s n))) ∧
    List.Pairwise (fun a b => b.score.getD 0 ≤ a.score.getD 0) items ∧
    (db.notes.filter (fun n => (score s n).isSome) = [] →
      (notesIndex db score (some s)).resp = .json 200 none (.noteArr []))) ∧
  (∃ items,
    (notesIndex db score none).resp = .json 200 none (.noteArr items) ∧
    List.Perm items (db.notes.map (fun n => noteListView n none)) ∧
    List.Pairwise (fun a b => a.created ≤ b.created) items ∧
    (db.notes = [] →
      (notesIndex db score none).resp = .json 200 none (.noteArr [])))

/-- Claim C1: GET /api/notes with a non-empty searchTerm filters by text
match over title/content and answers the matches ordered by descending
relevance score; without the parameter it answers all notes ordered by
creation time; and an empty match set yields an empty 200 array, never an
error. -/
theorem notesIndex_search_spec (db : DB) (score : String → Note → Option Nat)
    (s : String) (hs : s ≠ "") : notesIndexSpec db score s := by
  have hq : buildNotesQuery (some s)
      = { textSearch := some s, scoreProjection := true, sort := .byScoreDesc } := by
    simp [buildNotesQuery, jsTruthy, hs]
  constructor
  · refine ⟨execNotesFind db score (buildNotesQuery (some s)), rfl, ?_, ?_, ?_⟩
    · rw [hq, execNotesFind_search]
      exact List.Perm.map _ (sortByKeyDesc_perm _ _)
    · rw [hq, execNotesFind_search]
      refine List.Pairwise.map _ ?_
        (sortByKeyDesc_sorted (fun n => (score s n).getD 0) _)
      intro a b h
      simpa [noteListView] using h
    · intro hempty
      have hnil : execNotesFind db score (buildNotesQuery (some s)) = [] := by
        rw [hq, execNotesFind_search, hempty]
        rfl
      simpa [notesIndex] using congrArg (fun l => Resp.json 200 none (.noteArr l)) hnil
  · refine ⟨execNotesFind db score (buildNotesQuery none), rfl, ?_, ?_, ?_⟩
    · rw [show buildNotesQuery none
          = { textSearch := none, scoreProjection := false, sort := .byCreated } from rfl,
        execNotesFind_default]
      exact List.Perm.map _ (sortByKeyAsc_perm _ _)
    · rw [show buildNotesQuery none
          = { textSearch := none, scoreProjection := false, sort := .byCreated } from rfl,
        execNotesFind_default]
      refine List.Pairwise.map _ ?_ (sortByKeyAsc_sorted Note.created _)
      intro a b h
      simpa [noteListView] using h
    · intro hempty
      have hnil : execNotesFind db score (buildNotesQuery none) = [] := by
        rw [show buildNotesQuery none
            = { textSearch := none, scoreProjection := false, sort := .byCreated } from rfl,
          execNotesFind_default, hempty]
        rfl
      simpa [notesIndex] using congrArg (fun l => Resp.json 200 none (.noteArr l)) hnil

/-- Note matching the demo search term. -/
def noteGaga : Note := { id := "aaaaaaaaaaaaaaaaaaaaaaaa", title := "gaga ways",
                         content := some "lady", folderId := none, tags := [], created := 2 }

/-- Note not matching the demo search term. -/
def notePlain : Note := { id := "bbbbbbbbbbbbbbbbbbbbbbbb", title := "cats",
                          content := some "lorem", folderId := none, tags := [], created := 1 }

/-- Two-note database for the concrete list scenario. -/
def dbDemo : DB := { notes := [noteGaga, notePlain], folders := [] }

/-- Concrete relevance scoring: only `noteGaga` matches the term "gaga". -/
def demoScore : String → Note → Option Nat := fun s n =>
  if s == "gaga" && n.id == noteGaga.id then some 2 else none

/-- Witness for C1 at the two-note database and the search term "gaga". -/
theorem notesIndex_search_spec_w :
    ("gaga" : String) ≠ "" ∧ notesIndexSpec dbDemo demoScore "gaga" :=
  ⟨by decide, notesIndex_search_spec dbDemo demoScore "gaga" (by decide)⟩

end Noteful
